import Mathlib

/-!
Shallow embedding of the agent orchestration core of `fastapi-agent-backend`
(`app/agents.py` and the `GET /v1/agents` handler of `app/api/v1/agent.py`).

External effects are made explicit:
* whether each third-party framework imports successfully at construction time
  is a parameter `importOk : AgentKind → Bool` of the orchestrator constructor;
* the outcome of the blocking framework run performed by an adapter (its
  result on success, or the string representation of the raised exception,
  including the 60-second timeout error) and the elapsed wall-clock
  milliseconds measured by `_measure_execution_time` are supplied by a
  `RunEnv`.  Elapsed time is a `Nat`: `int((time.time() - start) * 1000)`
  of a non-negative elapsed duration.

Python dictionaries with heterogeneous values are association lists over a
small value type `PyVal`.
-/

namespace AgentBackend

/-- Values stored in the Python dicts of `agents.py` (`token_usage`,
`metadata`, `get_agent_info` results). -/
inductive PyVal where
  | str : String → PyVal
  | int : Int → PyVal
  | bool : Bool → PyVal
  deriving DecidableEq, Repr

/-- A Python `Dict[str, Any]` as an association list. -/
abbrev PyDict := List (String × PyVal)

/-- `AgentResponse` dataclass: standardized response format for all agents
(`agents.py` lines 28-36).  Every field except `success` defaults to
`None`. -/
structure AgentResponse where
  success : Bool
  result : Option String := none
  error : Option String := none
  execution_time_ms : Option Nat := none
  token_usage : Option PyDict := none
  metadata : Option PyDict := none
  deriving DecidableEq, Repr

/-- `TaskOutput` model: structured output format for agent tasks
(`agents.py` lines 38-44). -/
structure TaskOutput where
  title : String
  content : String
  summary : String
  key_points : List String := []
  metadata : PyDict := []
  deriving DecidableEq, Repr

/-- The three adapter classes registered by the orchestrator. -/
inductive AgentKind where
  | praisonai
  | crewai
  | ag2
  deriving DecidableEq, Repr

/-- The `name` each adapter class passes to `BaseAgent.__init__`. -/
def AgentKind.frameworkName : AgentKind → String
  | .praisonai => "praisonai"
  | .crewai => "crewai"
  | .ag2 => "ag2"

/-- The error message each adapter returns from its fast path when
`available` is false (`agents.py` lines 92-96, 181-185, 267-271). -/
def AgentKind.unavailableError : AgentKind → String
  | .praisonai => "PraisonAI agent not available"
  | .crewai => "CrewAI agent not available"
  | .ag2 => "AG2/AutoGen agent not available"

/-- An adapter instance: `BaseAgent.__init__` stores `name` and `available`.
`available` is fixed at construction (set to true only when the
framework import succeeds) and never re-checked. -/
structure Agent where
  kind : AgentKind
  name : String
  available : Bool
  deriving DecidableEq, Repr

/-- Constructing an adapter of kind `k`: the class constructor sets
`self.name` to the framework name and `self.available` to whether the
framework import succeeded (`avail`). -/
def mkAgent (k : AgentKind) (avail : Bool) : Agent :=
  { kind := k, name := k.frameworkName, available := avail }

/-- Result of a PraisonAI run (`agents.py` lines 135-141): either the result
object has a truthy `pydantic` attribute carrying a `TaskOutput`, or it is
taken through `str(result) if result else ...`; `plain none` models a falsy
result (`None` or empty). -/
inductive PraisonResult where
  | pydantic : TaskOutput → PraisonResult
  | plain : Option String → PraisonResult
  deriving DecidableEq, Repr

/-- `response_content` computed by `PraisonAIAgent.execute` on success
(`agents.py` lines 135-141). -/
def praisonResponseContent : PraisonResult → String
  | .pydantic o =>
    let base := "Title: " ++ o.title ++ "\n\nContent: " ++ o.content ++
      "\n\nSummary: " ++ o.summary
    if o.key_points.isEmpty then base
    else base ++ "\n\nKey Points:\n" ++
      String.intercalate "\n" (o.key_points.map (fun p => "- " ++ p))
  | .plain none => "No response generated"
  | .plain (some s) => s

/-- Extraction of the last assistant message by `AG2Agent.execute`
(`agents.py` lines 314-318): the chat history is a list of messages, each
with an optional `content` entry; `dict.get` supplies "No response" when the
entry is absent and the empty history gives "No response generated". -/
def ag2LastMessage (hist : List (Option String)) : String :=
  match hist.getLast? with
  | none => "No response generated"
  | some none => "No response"
  | some (some c) => c

/-- Outcome of the blocking framework calls, supplied by the environment.
For each framework: `Except.ok` carries what the run produced, `Except.error`
carries `str(e)` for the exception `e` raised during execution (timeouts of
`future.result(timeout=60)` included); the elapsed-milliseconds fields are
what `_measure_execution_time` returns at the measurement point. -/
structure RunEnv where
  praisonRun : Except String PraisonResult
  praisonElapsedMs : Nat
  crewRun : Except String String
  crewElapsedMs : Nat
  ag2Run : Except String (List (Option String))
  ag2ElapsedMs : Nat
  deriving Repr

/-- `execute(task, context)` of the three adapter classes
(`agents.py` lines 90-158, 179-237, 265-335).  Each checks `available`
first and returns the unavailability error with no time measurement;
otherwise it runs the framework (abstracted by `env`), returning the
success response with `execution_time_ms`, the one-entry `token_usage`
and the framework `metadata`, or converting any exception into a failure
response carrying `str(e)` and the elapsed time.  The function is total:
no exception escapes `execute`. -/
def Agent.execute (a : Agent) (env : RunEnv) (_task : String)
    (_context : Option PyDict) : AgentResponse :=
  match a.kind with
  | .praisonai =>
    if !a.available then
      { success := false, error := some "PraisonAI agent not available" }
    else
      match env.praisonRun with
      | .ok r =>
        { success := true
          result := some (praisonResponseContent r)
          execution_time_ms := some env.praisonElapsedMs
          token_usage := some [("framework", .str "praisonai")]
          metadata := some [("framework", .str "praisonai"), ("agents_used", .int 1)] }
      | .error e =>
        { success := false, error := some e,
          execution_time_ms := some env.praisonElapsedMs }
  | .crewai =>
    if !a.available then
      { success := false, error := some "CrewAI agent not available" }
    else
      match env.crewRun with
      | .ok r =>
        { success := true
          result := some r
          execution_time_ms := some env.crewElapsedMs
          token_usage := some [("framework", .str "crewai")]
          metadata := some [("framework", .str "crewai"), ("agents_used", .int 1)] }
      | .error e =>
        { success := false, error := some e,
          execution_time_ms := some env.crewElapsedMs }
  | .ag2 =>
    if !a.available then
      { success := false, error := some "AG2/AutoGen agent not available" }
    else
      match env.ag2Run with
      | .ok hist =>
        { success := true
          result := some (ag2LastMessage hist)
          execution_time_ms := some env.ag2ElapsedMs
          token_usage := some [("framework", .str "ag2")]
          metadata := some [("framework", .str "ag2"), ("agents_used", .int 2)] }
      | .error e =>
        { success := false, error := some e,
          execution_time_ms := some env.ag2ElapsedMs }

/-- The orchestrator state: `self.agents`, a dict from agent-type key to
adapter instance, insertion-ordered. -/
structure AgentOrchestrator where
  agents : List (String × Agent)
  deriving DecidableEq, Repr

/-- `AgentOrchestrator.__init__` via `_initialize_agents` (`agents.py` lines
342-363): registers exactly `praisonai`, `crewai` and `ag2`, in that order;
`importOk k` says whether the framework import of kind `k` succeeded. -/
def initAgents (importOk : AgentKind → Bool) : AgentOrchestrator :=
  { agents :=
      [ ("praisonai", mkAgent .praisonai (importOk .praisonai))
      , ("crewai", mkAgent .crewai (importOk .crewai))
      , ("ag2", mkAgent .ag2 (importOk .ag2)) ] }

/-- `get_available_agents` (`agents.py` lines 365-370): keys whose adapter
reports `available`. -/
def AgentOrchestrator.get_available_agents (o : AgentOrchestrator) : List String :=
  (o.agents.filter (fun p => p.2.available)).map Prod.fst

/-- `_get_agent_description` (`agents.py` lines 385-392): a static dict
lookup with the default "Unknown agent type". -/
def get_agent_description (agent_type : String) : String :=
  (([ ("praisonai", "Multi-agent orchestration with structured outputs")
    , ("crewai", "Collaborative AI agents for complex tasks")
    , ("ag2", "AutoGen conversation-based multi-agent system")
    ] : List (String × String)).lookup agent_type).getD "Unknown agent type"

/-- `get_agent_info` (`agents.py` lines 372-383): an error dict for an
unregistered key, otherwise the four-field info dict.  The method only reads
`self.agents`, so it is pure (no state mutation). -/
def AgentOrchestrator.get_agent_info (o : AgentOrchestrator)
    (agent_type : String) : PyDict :=
  match o.agents.lookup agent_type with
  | none => [("error", .str ("Agent type '" ++ agent_type ++ "' not found"))]
  | some agent =>
    [ ("name", .str agent.name)
    , ("available", .bool agent.available)
    , ("type", .str agent_type)
    , ("description", .str (get_agent_description agent_type)) ]

/-- The legacy alias table of `execute_task` (`agents.py` lines 402-405):
`agent_type_mapping.get(agent_type, agent_type)` with the one entry
`autogen` mapped to `ag2`. -/
def resolve_agent_type (agent_type : String) : String :=
  (([("autogen", "ag2")] : List (String × String)).lookup agent_type).getD agent_type

/-- `execute_task` (`agents.py` lines 394-431): resolve the alias, look up
the adapter (failure: "not found" error, no time), check availability
(failure: fall back to the `mock` key; when absent or unavailable, the
"no fallback" error, no time), then dispatch to the adapter.  The dispatched
`Agent.execute` is total, so the defensive `except` around it
(lines 426-431) is never taken in this model. -/
def AgentOrchestrator.execute_task (o : AgentOrchestrator) (env : RunEnv)
    (agent_type task : String) (context : Option PyDict) : AgentResponse :=
  let resolved := resolve_agent_type agent_type
  match o.agents.lookup resolved with
  | none =>
    { success := false
      error := some ("Agent type '" ++ resolved ++ "' not found") }
  | some agent =>
    if !agent.available then
      match o.agents.lookup "mock" with
      | some fb =>
        if fb.available then fb.execute env task context
        else
          { success := false
            error := some ("Agent '" ++ resolved ++ "' not available and no fallback") }
      | none =>
        { success := false
          error := some ("Agent '" ++ resolved ++ "' not available and no fallback") }
    else agent.execute env task context

/-- An HTTP-level error response (`fastapi.HTTPException`). -/
structure HTTPErrorResult where
  status_code : Nat
  detail : String
  deriving DecidableEq, Repr

/-- Response model of `GET /v1/agents` (`agent.py` lines 45-48). -/
structure AgentInfoResponse where
  available_agents : List String
  agent_details : List (String × PyDict)
  deriving DecidableEq, Repr

/-- The `TypeError` message raised when `get_agent_info` is called with no
argument: the method signature (`agents.py` line 372) requires the
positional argument `agent_type`, so the zero-argument call raises before
the method body runs. -/
def get_agent_info_missing_arg : String :=
  "get_agent_info() missing 1 required positional argument: 'agent_type'"

/-- The `GET /v1/agents` handler (`agent.py` lines 231-263).  The body first
evaluates `orchestrator.get_available_agents()`, then calls
`orchestrator.get_agent_info()` with no argument; since `get_agent_info`
requires the `agent_type` positional argument, that call raises `TypeError`,
which the except clause of the handler converts into an HTTP 500 response
with detail `Failed to get agent info: <message>`.  The success branch of
the handler is therefore unreachable. -/
def get_agents (o : AgentOrchestrator) : Except HTTPErrorResult AgentInfoResponse :=
  let _available_agents := o.get_available_agents
  .error
    { status_code := 500
      detail := "Failed to get agent info: " ++ get_agent_info_missing_arg }

/-- Substring occurrence: `t` occurs contiguously in `s`. -/
def strContains (s t : String) : Prop :=
  t.data <:+: s.data

instance (s t : String) : Decidable (strContains s t) :=
  List.decidableInfix t.data s.data

/-- A sample environment in which every framework run succeeds. -/
def okEnv : RunEnv :=
  { praisonRun := .ok (.plain (some "fine"))
    praisonElapsedMs := 5
    crewRun := .ok "crew result"
    crewElapsedMs := 7
    ag2Run := .ok [some "hi"]
    ag2ElapsedMs := 9 }

/-- A sample environment in which every framework run raises. -/
def exnEnv : RunEnv :=
  { praisonRun := .error "praison boom"
    praisonElapsedMs := 11
    crewRun := .error "boom"
    crewElapsedMs := 7
    ag2Run := .error "ag2 boom"
    ag2ElapsedMs := 13 }

/-! ## Theorems about the claims -/

/-- C1 (counterexample): with all three adapters unavailable and no mock
adapter registered, `execute_task "praisonai" "hello"` does return
`success = false` and `execution_time_ms = none`, but its error is the
orchestrator's no-fallback message, not the adapter message
"PraisonAI agent not available" the claim states. -/
theorem c1_error_not_adapter_message :
    ((initAgents (fun _ => false)).execute_task exnEnv "praisonai" "hello"
        (some [])).success = false ∧
    ((initAgents (fun _ => false)).execute_task exnEnv "praisonai" "hello"
        (some [])).execution_time_ms = none ∧
    ((initAgents (fun _ => false)).execute_task exnEnv "praisonai" "hello"
        (some [])).error ≠ some "PraisonAI agent not available" := by
  refine ⟨rfl, rfl, ?_⟩
  decide

/-- C1 (amended): with all three adapters unavailable and no mock adapter
registered, `execute_task "praisonai" "hello"` returns `success = false`,
`execution_time_ms = none` and the error
"Agent 'praisonai' not available and no fallback", whatever the run
environment and context: the orchestrator's availability check intercepts
the call before the adapter's own fast path can produce its message. -/
theorem c1_all_unavailable_no_fallback (env : RunEnv) (context : Option PyDict) :
    (initAgents (fun _ => false)).execute_task env "praisonai" "hello" context =
      { success := false
        error := some "Agent 'praisonai' not available and no fallback" } := by
  rfl

/-- C4: every call to the `GET /v1/agents` handler fails with an HTTP 500
error, because the handler invokes `get_agent_info` with no argument; it
never returns the documented `available_agents` / `agent_details`
response. -/
theorem c4_get_agents_always_500 (o : AgentOrchestrator) :
    ∃ e, get_agents o = Except.error e ∧ e.status_code = 500 :=
  ⟨{ status_code := 500
     detail := "Failed to get agent info: " ++ get_agent_info_missing_arg },
   rfl, rfl⟩

/-- C7: an adapter whose `available` flag is false returns immediately from
`execute` with `success = false`, the error naming its framework as
unavailable, and `execution_time_ms = none`; the response does not depend on
the run environment, so the underlying framework is never invoked. -/
theorem c7_unavailable_fast_path (k : AgentKind) (env : RunEnv) (task : String)
    (context : Option PyDict) :
    (mkAgent k false).execute env task context =
      { success := false, error := some k.unavailableError } := by
  cases k <;> rfl

/-- A string occurs in any concatenation that surrounds it. -/
theorem strContains_append (pre post r : String) :
    strContains (pre ++ r ++ post) r := by
  show r.data <:+: (pre ++ r ++ post).data
  exact ⟨pre.data, post.data, by simp [String.data_append]⟩

/-- C5: when the resolved agent type is not a registered key, `execute_task`
returns `success = false` with an error containing both the literal resolved
type name and the words "not found". -/
theorem c5_unknown_type_not_found (o : AgentOrchestrator) (env : RunEnv)
    (agent_type task : String) (context : Option PyDict)
    (h : o.agents.lookup (resolve_agent_type agent_type) = none) :
    (o.execute_task env agent_type task context).success = false ∧
    ∃ s, (o.execute_task env agent_type task context).error = some s ∧
      strContains s (resolve_agent_type agent_type) ∧ strContains s "not found" := by
  have hrun : o.execute_task env agent_type task context =
      { success := false
        error := some ("Agent type '" ++ resolve_agent_type agent_type ++ "' not found") } := by
    simp only [AgentOrchestrator.execute_task]
    rw [h]
  rw [hrun]
  refine ⟨rfl, _, rfl, strContains_append "Agent type '" "' not found" _, ?_⟩
  have hsplit : "Agent type '" ++ resolve_agent_type agent_type ++ "' not found" =
      ("Agent type '" ++ resolve_agent_type agent_type ++ "' ") ++ "not found" ++ "" := by
    simp [String.append_assoc]
  rw [hsplit]
  exact strContains_append _ "" _

/-- C5 (witness): `execute_task "nonexistent_agent" "t"` on the orchestrator
with every framework importable fails with an error containing the type name
and "not found". -/
theorem c5_witness :
    (initAgents (fun _ => true)).agents.lookup
        (resolve_agent_type "nonexistent_agent") = none ∧
    (((initAgents (fun _ => true)).execute_task okEnv "nonexistent_agent" "t"
        none).success = false ∧
     ∃ s, ((initAgents (fun _ => true)).execute_task okEnv "nonexistent_agent" "t"
        none).error = some s ∧
       strContains s (resolve_agent_type "nonexistent_agent") ∧
       strContains s "not found") :=
  ⟨by decide, c5_unknown_type_not_found _ okEnv "nonexistent_agent" "t" none (by decide)⟩

/-- C6: `execute_task "autogen" ...` takes the same dispatch path and returns
the same result as `execute_task "ag2" ...` on every orchestrator, run
environment, task and context; the alias table maps "autogen" to "ag2" and
leaves every other agent-type name unchanged. -/
theorem c6_autogen_alias (o : AgentOrchestrator) (env : RunEnv) (task : String)
    (context : Option PyDict) (t : String) (ht : t ≠ "autogen") :
    o.execute_task env "autogen" task context = o.execute_task env "ag2" task context ∧
    resolve_agent_type "autogen" = "ag2" ∧ resolve_agent_type t = t := by
  refine ⟨rfl, rfl, ?_⟩
  have hbeq : (t == "autogen") = false := by simpa using ht
  simp [resolve_agent_type, List.lookup, hbeq]

/-- C6 (witness): the aliasing facts at the concrete inputs "autogen", "ag2"
and "praisonai". -/
theorem c6_witness :
    (initAgents (fun _ => false)).execute_task okEnv "autogen" "t" none =
      (initAgents (fun _ => false)).execute_task okEnv "ag2" "t" none ∧
    resolve_agent_type "autogen" = "ag2" ∧
    resolve_agent_type "praisonai" = "praisonai" :=
  c6_autogen_alias (initAgents (fun _ => false)) okEnv "t" none "praisonai" (by decide)

/-- C9: `get_agent_info` returns, for a registered key, exactly the fields
`name`, `available`, `type`, `description` (with the adapter's data), and,
for an unregistered key, the error object
`error = Agent type <key> not found` rather than raising; the method only
reads the orchestrator state, so repeated calls with the same key return
the same value. -/
theorem c9_get_agent_info (o : AgentOrchestrator) (t u : String) (a : Agent)
    (hreg : o.agents.lookup t = some a) (hunreg : o.agents.lookup u = none) :
    o.get_agent_info t =
      [ ("name", .str a.name)
      , ("available", .bool a.available)
      , ("type", .str t)
      , ("description", .str (get_agent_description t)) ] ∧
    (o.get_agent_info t).map Prod.fst = ["name", "available", "type", "description"] ∧
    o.get_agent_info u = [("error", .str ("Agent type '" ++ u ++ "' not found"))] := by
  have hr : o.get_agent_info t =
      [ ("name", .str a.name)
      , ("available", .bool a.available)
      , ("type", .str t)
      , ("description", .str (get_agent_description t)) ] := by
    unfold AgentOrchestrator.get_agent_info
    rw [hreg]
  have hu : o.get_agent_info u =
      [("error", .str ("Agent type '" ++ u ++ "' not found"))] := by
    unfold AgentOrchestrator.get_agent_info
    rw [hunreg]
  rw [hr, hu]
  exact ⟨rfl, rfl, rfl⟩

/-- C9 (witness): the info dict of the registered key "crewai" and the error
object of the unregistered key "mock" on a concrete orchestrator. -/
theorem c9_witness :
    (initAgents (fun _ => true)).get_agent_info "crewai" =
      [ ("name", .str (mkAgent .crewai true).name)
      , ("available", .bool (mkAgent .crewai true).available)
      , ("type", .str "crewai")
      , ("description", .str (get_agent_description "crewai")) ] ∧
    ((initAgents (fun _ => true)).get_agent_info "crewai").map Prod.fst =
      ["name", "available", "type", "description"] ∧
    (initAgents (fun _ => true)).get_agent_info "mock" =
      [("error", .str ("Agent type '" ++ "mock" ++ "' not found"))] :=
  c9_get_agent_info (initAgents (fun _ => true)) "crewai" "mock"
    (mkAgent .crewai true) (by decide) (by decide)

/-- C10: across the three adapters, the `token_usage` of an `execute`
response is exactly the one-entry mapping from "framework" to the adapter
name whenever `success` is true (no actual token counts are ever reported),
and `none` whenever `success` is false. -/
theorem c10_token_usage (k : AgentKind) (avail : Bool) (env : RunEnv)
    (task : String) (context : Option PyDict) :
    (((mkAgent k avail).execute env task context).success = true →
      ((mkAgent k avail).execute env task context).token_usage =
        some [("framework", PyVal.str k.frameworkName)]) ∧
    (((mkAgent k avail).execute env task context).success = false →
      ((mkAgent k avail).execute env task context).token_usage = none) := by
  obtain ⟨pr, pe, cr, ce, ar, ae⟩ := env
  cases k <;> cases avail <;> cases pr <;> cases cr <;> cases ar <;>
    first
    | exact ⟨fun _ => rfl, fun h => Bool.noConfusion (show true = false from h)⟩
    | exact ⟨fun h => Bool.noConfusion (show false = true from h), fun _ => rfl⟩

/-- C10 (witness): the success case on a concrete ag2 run and the failure
case on a concrete praisonai run. -/
theorem c10_witness :
    ((mkAgent .ag2 true).execute okEnv "t" none).token_usage =
      some [("framework", PyVal.str "ag2")] ∧
    ((mkAgent .praisonai true).execute exnEnv "t" none).token_usage = none :=
  ⟨(c10_token_usage .ag2 true okEnv "t" none).1 rfl,
   (c10_token_usage .praisonai true exnEnv "t" none).2 rfl⟩

/-- C8: for an available adapter of any kind, when the underlying framework
run raises an exception with string representation `msg` (timeouts
included), `execute` returns `success = false`, `error = msg` and the
elapsed milliseconds measured up to the failure point; `execute` is a total
function, so no exception escapes to its caller. -/
theorem c8_exception_to_failure (k : AgentKind) (env : RunEnv) (task : String)
    (context : Option PyDict) (msg : String)
    (h : match k with
      | .praisonai => env.praisonRun = .error msg
      | .crewai => env.crewRun = .error msg
      | .ag2 => env.ag2Run = .error msg) :
    (mkAgent k true).execute env task context =
      { success := false
        error := some msg
        execution_time_ms := some (match k with
          | .praisonai => env.praisonElapsedMs
          | .crewai => env.crewElapsedMs
          | .ag2 => env.ag2ElapsedMs) } := by
  obtain ⟨pr, pe, cr, ce, ar, ae⟩ := env
  cases k
  case praisonai =>
    have h2 : pr = Except.error msg := h
    subst h2
    rfl
  case crewai =>
    have h2 : cr = Except.error msg := h
    subst h2
    rfl
  case ag2 =>
    have h2 : ar = Except.error msg := h
    subst h2
    rfl

/-- C8 (witness): a concrete crewai run that raises "boom" after 7 ms. -/
theorem c8_witness :
    (mkAgent .crewai true).execute exnEnv "t" none =
      { success := false, error := some "boom", execution_time_ms := some 7 } :=
  c8_exception_to_failure .crewai exnEnv "t" none "boom" rfl

/-- C3: the orchestrator constructor registers exactly the keys `praisonai`,
`crewai`, `ag2` — never `mock` — so whenever the resolved adapter is
unavailable, `execute_task` deterministically fails with the error naming
the resolved type and stating that no fallback exists. -/
theorem c3_no_mock_registered (importOk : AgentKind → Bool) (env : RunEnv)
    (agent_type task : String) (context : Option PyDict) (a : Agent)
    (hlook : (initAgents importOk).agents.lookup (resolve_agent_type agent_type) = some a)
    (hunavail : a.available = false) :
    (initAgents importOk).agents.map Prod.fst = ["praisonai", "crewai", "ag2"] ∧
    (initAgents importOk).agents.lookup "mock" = none ∧
    (initAgents importOk).execute_task env agent_type task context =
      { success := false
        error := some ("Agent '" ++ resolve_agent_type agent_type ++
          "' not available and no fallback") } := by
  refine ⟨rfl, rfl, ?_⟩
  simp only [AgentOrchestrator.execute_task, hlook, hunavail]
  rfl

/-- C3 (witness): with `ag2` unavailable and no mock registered, calling
with the alias `autogen` yields the error naming "ag2", not "autogen". -/
theorem c3_witness :
    (initAgents (fun _ => false)).agents.map Prod.fst = ["praisonai", "crewai", "ag2"] ∧
    (initAgents (fun _ => false)).agents.lookup "mock" = none ∧
    (initAgents (fun _ => false)).execute_task okEnv "autogen" "t" none =
      { success := false
        error := some "Agent 'ag2' not available and no fallback" } :=
  c3_no_mock_registered (fun _ => false) okEnv "autogen" "t" none
    (mkAgent .ag2 false) rfl rfl

/-- An adapter whose `available` flag is true always records an execution
time: both the success and the exception branch of `execute` set
`execution_time_ms`. -/
theorem Agent.execute_time_set (a : Agent) (env : RunEnv) (task : String)
    (context : Option PyDict) (ha : a.available = true) :
    (a.execute env task context).execution_time_ms ≠ none := by
  obtain ⟨k, n, av⟩ := a
  have hav : av = true := ha
  subst hav
  obtain ⟨pr, pe, cr, ce, ar, ae⟩ := env
  cases k
  case praisonai => cases pr <;> simp [Agent.execute]
  case crewai => cases cr <;> simp [Agent.execute]
  case ag2 => cases ar <;> simp [Agent.execute]

/-- C2 (amended): `execution_time_ms` of an `execute_task` response (an
`Option Nat`, hence `none` or a non-negative count of milliseconds) is
`none` exactly when the call fails fast without attempting execution: the
resolved type is unregistered, or the resolved adapter is unavailable and
no available `mock` fallback is registered.  On every path where an adapter
actually executed — success, failure or exception — it is set. -/
theorem c2_execution_time_none_iff (o : AgentOrchestrator) (env : RunEnv)
    (agent_type task : String) (context : Option PyDict) :
    (o.execute_task env agent_type task context).execution_time_ms = none ↔
      (o.agents.lookup (resolve_agent_type agent_type) = none ∨
       ∃ a, o.agents.lookup (resolve_agent_type agent_type) = some a ∧
         a.available = false ∧
         ∀ fb, o.agents.lookup "mock" = some fb → fb.available = false) := by
  simp only [AgentOrchestrator.execute_task]
  cases hres : o.agents.lookup (resolve_agent_type agent_type) with
  | none => exact iff_of_true rfl (Or.inl rfl)
  | some a =>
    cases hav : a.available with
    | true =>
      refine iff_of_false ?_ ?_
      · simpa [hav] using a.execute_time_set env task context hav
      · rintro (h | ⟨a', ha', hfalse, _⟩)
        · exact Option.noConfusion h
        · cases Option.some.inj ha'
          rw [hav] at hfalse
          exact Bool.noConfusion hfalse
    | false =>
      cases hmock : o.agents.lookup "mock" with
      | none =>
        refine iff_of_true ?_ (Or.inr ⟨a, rfl, hav, fun fb hfb => Option.noConfusion hfb⟩)
        simp [hav]
      | some fb =>
        cases hfb : fb.available with
        | false =>
          refine iff_of_true ?_
            (Or.inr ⟨a, rfl, hav, fun fb' hfb' => by cases Option.some.inj hfb'; exact hfb⟩)
          simp [hav, hfb]
        | true =>
          refine iff_of_false ?_ ?_
          · simpa [hav, hfb] using fb.execute_time_set env task context hfb
          · rintro (h | ⟨a', ha', _, hall⟩)
            · exact Option.noConfusion h
            · have := hall fb rfl
              rw [hfb] at this
              exact Bool.noConfusion this

/-- C2 (counterexample): the type "crewai" is registered — not unknown — yet
with all adapters unavailable `execute_task "crewai" "t"` returns
`execution_time_ms = none`, so `none` does not occur only on unknown agent
types. -/
theorem c2_counterexample :
    ((initAgents (fun _ => false)).agents.lookup
        (resolve_agent_type "crewai")).isSome = true ∧
    ((initAgents (fun _ => false)).execute_task okEnv "crewai" "t"
        none).execution_time_ms = none :=
  ⟨rfl, rfl⟩

end AgentBackend
